import Mathlib

/-!
Verification of the document-manager client (`documents.js`, `search.js`)
against its database schema (`schema.sql`).

The JavaScript builds PostgREST queries over the `documents` table; the
schema enables row-level security with the policy
`documents_user_isolation` (`auth.uid() = user_id`), defines the generated
`search_vector` column (title tier A, description tier B, content tier C),
and a CHECK constraint on `type_doc`.  The embedding below models the
database as a list of rows and each client function as the composition of
the server-side evaluation of the query it builds (filters, then count,
then ordering, then range) with the JavaScript response handling.
-/

namespace DocManager

/-- `DOCS_PAR_PAGE` from documents.js: fixed page size used by both
`getDocuments` and `rechercherDocuments`. -/
def DOCS_PAR_PAGE : Nat := 12

/-- One row of the `documents` table (schema.sql).  Timestamps are modelled
as naturals, `NULL`-able columns as `Option`. -/
structure Doc where
  id : Nat
  user_id : Nat
  titre : String
  description : Option String := none
  type_doc : Option String := none
  contenu : Option String := none
  tags : Option (List String) := none
  date_creation : Nat := 0
  date_modification : Nat := 0
  taille_kb : Option Int := none
  est_favori : Bool := false
deriving DecidableEq, Repr

/-- JavaScript `String.prototype.trim`: drop whitespace from both ends. -/
def jsTrim (s : String) : String :=
  ⟨((s.data.dropWhile Char.isWhitespace).reverse.dropWhile Char.isWhitespace).reverse⟩

/-- Does the second character list occur at the head of the first? -/
def charsStartWith : List Char → List Char → Bool
  | _, [] => true
  | [], _ :: _ => false
  | c :: cs, d :: ds => c == d && charsStartWith cs ds

/-- Does the needle occur anywhere inside the haystack? -/
def charsContain : List Char → List Char → Bool
  | [], needle => needle.isEmpty
  | c :: rest, needle => charsStartWith (c :: rest) needle || charsContain rest needle

/-- Accumulator pass splitting a character stream into maximal
alphanumeric runs. -/
def tokenizeAux : List Char → List Char → List String
  | [], acc => if acc.isEmpty then [] else [String.mk acc.reverse]
  | c :: rest, acc =>
      if c.isAlphanum then tokenizeAux rest (c :: acc)
      else if acc.isEmpty then tokenizeAux rest []
      else String.mk acc.reverse :: tokenizeAux rest []

/-- Model of PostgreSQL text tokenization (`to_tsvector` /
`plainto_tsquery`): lower-case the text and split at non-alphanumeric
characters, dropping empty pieces.  French stemming and stop-word removal
are abstracted away; tokens are compared literally. -/
def tokenize (s : String) : List String :=
  tokenizeAux (s.data.map Char.toLower) []

/-- The three weight tiers of a tsvector, as produced by the generated
column of schema.sql: `setweight(titre,'A') || setweight(description,'B')
|| setweight(contenu,'C')`. -/
structure TsVector where
  a : List String
  b : List String
  c : List String
deriving DecidableEq, Repr

/-- The generated `search_vector` column: title tokens carry weight A,
description tokens weight B, content tokens weight C (`COALESCE(_, '')`
for the nullable fields). -/
def search_vector (d : Doc) : TsVector :=
  ⟨tokenize d.titre, tokenize (d.description.getD ""), tokenize (d.contenu.getD "")⟩

/-- A tsvector holds a token if any tier holds it. -/
def tsHasToken (v : TsVector) (t : String) : Bool :=
  v.a.contains t || v.b.contains t || v.c.contains t

/-- `search_vector @@ plainto_tsquery(term)`: every token of the term must
occur in the vector; an empty query (a term with no tokens) matches no
row. -/
def tsMatchPlain (v : TsVector) (term : String) : Bool :=
  let q := tokenize term
  !q.isEmpty && q.all (tsHasToken v)

/-- Row-level security (policy `documents_user_isolation` in schema.sql):
every statement on `documents` only sees rows with
`auth.uid() = user_id`. -/
def rlsVisible (uid : Nat) (db : List Doc) : List Doc :=
  db.filter (fun d => d.user_id == uid)

/-- The destructured `filtres` argument of `getDocuments`, with the
defaults of documents.js lines 32-38. -/
structure Filtres where
  type_doc : Option String := none
  tags : Option (List String) := none
  favoris : Bool := false
  tri : String := "date_creation"
  page : Nat := 0
deriving DecidableEq, Repr

/-- `if (type_doc) query = query.eq('type_doc', type_doc)`: the equality
filter is applied only when `type_doc` is truthy (not null, not the empty
string). -/
def typeFilterOk (type_doc : Option String) (d : Doc) : Bool :=
  match type_doc with
  | none => true
  | some t => if t.isEmpty then true else d.type_doc == some t

/-- `if (favoris) query = query.eq('est_favori', true)`. -/
def favorisFilterOk (favoris : Bool) (d : Doc) : Bool :=
  !favoris || d.est_favori

/-- `if (tags && tags.length > 0) query = query.contains('tags', tags)`:
the PostgreSQL array-containment operator `tags @> filter` requires every
filter tag to occur in the row's tags; a `NULL` tags column matches no
non-trivial containment filter (modelled by `getD []`). -/
def tagsFilterOk (tags : Option (List String)) (d : Doc) : Bool :=
  match tags with
  | none => true
  | some ts => if ts.isEmpty then true else ts.all (fun t => (d.tags.getD []).contains t)

/-- Conjunction of the three optional filters of `getDocuments`. -/
def matchesFiltres (f : Filtres) (d : Doc) : Bool :=
  typeFilterOk f.type_doc d && favorisFilterOk f.favoris d && tagsFilterOk f.tags d

/-- The rows matching the full predicate of a `getDocuments` query:
row-level security first, then the optional filters. -/
def docsMatching (uid : Nat) (db : List Doc) (f : Filtres) : List Doc :=
  (rlsVisible uid db).filter (matchesFiltres f)

/-- `.order(tri, { ascending: tri === 'titre' })`: A-to-Z on the title
when sorting by title, most recent first otherwise (default column
`date_creation`).  Sorting is a stable merge sort, as PostgREST delegates
to the database ORDER BY. -/
def sortDocs (tri : String) (l : List Doc) : List Doc :=
  if tri == "titre" then l.insertionSort (fun x y => x.titre ≤ y.titre)
  else l.insertionSort (fun x y => y.date_creation ≤ x.date_creation)

/-- The `{ data, error, count }` shape of a Supabase response. -/
structure SupaResponse where
  data : Option (List Doc) := none
  error : Option String := none
  count : Option Nat := none
deriving DecidableEq, Repr

/-- The `{ documents, total }` object returned by `getDocuments` and
`rechercherDocuments`. -/
structure QueryResult where
  documents : List Doc
  total : Nat
deriving DecidableEq, Repr

/-- Server-side evaluation of the query built in `getDocuments` lines
44-64: filters, `count: 'exact'` over the filtered set, ORDER BY, then
`.range(offset, offset + DOCS_PAR_PAGE - 1)` with `offset = page * 12`.
An offset past the end yields an empty row list, not an error. -/
def evalGetQuery (uid : Nat) (db : List Doc) (f : Filtres) : SupaResponse :=
  let matching := docsMatching uid db f
  let ordered := sortDocs f.tri matching
  let offset := f.page * DOCS_PAR_PAGE
  { data := some ((ordered.drop offset).take DOCS_PAR_PAGE),
    error := none,
    count := some matching.length }

/-- Response handling of `getDocuments` lines 66-77: an error is rethrown
as a generic message; otherwise `data || []` and `count || 0` coerce a
null payload to the empty array and a null count to zero. -/
def getDocumentsFromResp (resp : SupaResponse) : Except String QueryResult :=
  match resp.error with
  | some _ => .error "Impossible de charger les documents"
  | none => .ok ⟨resp.data.getD [], resp.count.getD 0⟩

/-- `getDocuments(filtres)` for an authenticated user `uid` over database
state `db`. -/
def getDocuments (uid : Nat) (db : List Doc) (f : Filtres) : Except String QueryResult :=
  getDocumentsFromResp (evalGetQuery uid db f)

/-- The pure result `getDocuments` always succeeds with (its query
evaluation never reports an error). -/
def getDocumentsRes (uid : Nat) (db : List Doc) (f : Filtres) : QueryResult :=
  ⟨((sortDocs f.tri (docsMatching uid db f)).drop (f.page * DOCS_PAR_PAGE)).take DOCS_PAR_PAGE,
   (docsMatching uid db f).length⟩

theorem getDocuments_eq_ok (uid : Nat) (db : List Doc) (f : Filtres) :
    getDocuments uid db f = .ok (getDocumentsRes uid db f) := rfl

/-- The rows matching the full predicate of a `rechercherDocuments` query
for a non-empty term: row-level security, then
`.textSearch('search_vector', termePropre, { type: 'plain' })`, then the
optional `type_doc` equality filter.  Note search.js only destructures
`page` and `type_doc` from `filtres` on this path. -/
def searchMatching (uid : Nat) (db : List Doc) (termePropre : String)
    (type_doc : Option String) : List Doc :=
  ((rlsVisible uid db).filter (fun d => tsMatchPlain (search_vector d) termePropre)).filter
    (typeFilterOk type_doc)

/-- Server-side evaluation of the query built in search.js lines 47-61:
text-search filter, optional type filter, `count: 'exact'`, and
`.range(offset, offset + DOCS_PAR_PAGE - 1)`.  The builder chain contains
no `.order(...)` call, so no ordering is requested: rows come back in
table order. -/
def evalSearchQuery (uid : Nat) (db : List Doc) (termePropre : String)
    (f : Filtres) : SupaResponse :=
  let matching := searchMatching uid db termePropre f.type_doc
  let offset := f.page * DOCS_PAR_PAGE
  { data := some ((matching.drop offset).take DOCS_PAR_PAGE),
    error := none,
    count := some matching.length }

/-- JavaScript `String.prototype.includes`: does `sub` occur anywhere in
`s`? -/
def jsIncludes (s sub : String) : Bool :=
  charsContain s.data sub.data

/-- Response handling of `rechercherDocuments` lines 63-81: an error whose
message includes "syntax error" is absorbed into `{ documents: [], total:
0 }`, any other error is rethrown; on success `data || []` and
`count || 0` apply the same null coercions as `getDocuments`. -/
def rechercherFromResp (resp : SupaResponse) : Except String QueryResult :=
  match resp.error with
  | some msg =>
      if jsIncludes msg "syntax error" then .ok ⟨[], 0⟩
      else .error "Erreur pendant la recherche"
  | none => .ok ⟨resp.data.getD [], resp.count.getD 0⟩

/-- `rechercherDocuments(terme, filtres)` for an authenticated user `uid`:
a null or whitespace-only term falls back to `getDocuments(filtres)`
(lines 36-39); otherwise the trimmed term is text-searched.  The
fire-and-forget history insert (`sauvegarderRecherche`) touches another
table and is not modelled. -/
def rechercherDocuments (uid : Nat) (db : List Doc) (terme : String)
    (f : Filtres) : Except String QueryResult :=
  if (jsTrim terme).isEmpty then getDocuments uid db f
  else rechercherFromResp (evalSearchQuery uid db (jsTrim terme) f)

/-- The input object of `ajouterDocument` (documents.js lines 82-92).
Optional fields model absent JavaScript properties as `none`. -/
structure NewDocData where
  titre : String
  type_doc : Option String := none
  description : Option String := none
  contenu : Option String := none
  tags : Option (List String) := none
  taille_kb : Option Int := none
  est_favori : Option Bool := none
deriving DecidableEq, Repr

/-- Tag cleaning shared by `ajouterDocument` (lines 98-100) and
`modifierDocument` (lines 153-155):
`tags.map(t => t.trim()).filter(t => t.length > 0)`. -/
def nettoieTags (ts : List String) : List String :=
  (ts.map jsTrim).filter (fun t => !t.isEmpty)

/-- JavaScript `s || null` on an optional string: the empty string is
falsy and becomes null. -/
def jsOrNullStr (s : Option String) : Option String :=
  match s with
  | none => none
  | some v => if v.isEmpty then none else some v

/-- JavaScript `n || null` on an optional number: zero is falsy and
becomes null. -/
def jsOrNullInt (n : Option Int) : Option Int :=
  match n with
  | none => none
  | some v => if v = 0 then none else some v

/-- The CHECK constraint of schema.sql line 17:
`type_doc IN ('pdf', 'note', 'lien', 'image')`.  A NULL `type_doc`
satisfies the constraint (SQL three-valued logic). -/
def typeDocValide (t : Option String) : Bool :=
  match t with
  | none => true
  | some v => ["pdf", "note", "lien", "image"].contains v

/-- `ajouterDocument(data)` for authenticated user `uid`: cleans the tags,
builds the row of lines 104-114 (with `newId` for the generated UUID and
`now` for the `DEFAULT NOW()` timestamps) and inserts it.  The insert
fails — and the JavaScript rethrows a generic creation error — exactly
when the row violates the `type_doc` CHECK constraint; `titre` is always a
(possibly empty) string, so the NOT NULL constraint never fires here.  On
success the created row and the new table state are returned. -/
def ajouterDocument (uid : Nat) (db : List Doc) (newId : Nat) (now : Nat)
    (data : NewDocData) : Except String (Doc × List Doc) :=
  let tagsPropres := nettoieTags (data.tags.getD [])
  let row : Doc :=
    { id := newId
      user_id := uid
      titre := jsTrim data.titre
      description := jsOrNullStr data.description
      type_doc := data.type_doc
      contenu := jsOrNullStr data.contenu
      tags := if tagsPropres.length > 0 then some tagsPropres else none
      date_creation := now
      date_modification := now
      taille_kb := jsOrNullInt data.taille_kb
      est_favori := data.est_favori.getD false }
  if typeDocValide data.type_doc then .ok (row, db ++ [row])
  else .error "Erreur lors de la création du document"

/-- The tags field written by `modifierDocument` when `data.tags` is
supplied (lines 152-156): a null value clears the column, an array is
cleaned with the same trim-and-drop-empties pass as on creation. -/
def updateTagsValue (supplied : Option (List String)) : Option (List String) :=
  match supplied with
  | none => none
  | some ts => some (nettoieTags ts)

/-- Relevance score as the specification describes the Ranker: the sum,
over the tokens of the term, of the tier weights (title 3, description 2,
content 1) of the tiers containing the token.  This definition follows the
spec, not the JavaScript: the query built by `rechercherDocuments`
requests no ordering at all, and this function is used to state that
divergence. -/
def specScore (term : String) (d : Doc) : Nat :=
  ((tokenize term).map (fun t =>
    (if (search_vector d).a.contains t then 3 else 0) +
    (if (search_vector d).b.contains t then 2 else 0) +
    (if (search_vector d).c.contains t then 1 else 0))).sum

/-- Concrete record owned by user 1, used in witnesses. -/
def docAlice : Doc :=
  { id := 1, user_id := 1, titre := "Alpha", tags := some ["a", "b", "c"] }

/-- Concrete record owned by user 2, used in witnesses. -/
def docBob : Doc :=
  { id := 2, user_id := 2, titre := "Beta" }

/-- Record whose only hit for the term "algebra" is in the content
(tier C, weight 1); it sits first in table order. -/
def docAlgebraContenu : Doc :=
  { id := 1, user_id := 1, titre := "Notes", contenu := some "algebra stuff",
    date_modification := 100 }

/-- Record whose hit for the term "algebra" is in the title (tier A,
weight 3); it sits second in table order. -/
def docAlgebraTitre : Doc :=
  { id := 2, user_id := 1, titre := "Algebra", date_modification := 50 }

/-- The row `ajouterDocument` inserts for an empty title and type
`note`. -/
def docTitreVide : Doc :=
  { id := 7, user_id := 1, titre := "", type_doc := some "note" }

/-- The row `ajouterDocument` inserts for the supplied tag list
`["x", " x "]`: both entries trim to `"x"` and the duplicate is kept. -/
def docTagsDup : Doc :=
  { id := 7, user_id := 1, titre := "T", type_doc := some "note",
    tags := some ["x", "x"] }

/-! ## Helper lemmas -/

theorem mem_sortDocs {d : Doc} {tri : String} {l : List Doc} :
    d ∈ sortDocs tri l ↔ d ∈ l := by
  unfold sortDocs
  split
  · exact List.mem_insertionSort (fun x y : Doc => x.titre ≤ y.titre)
  · exact List.mem_insertionSort (fun x y : Doc => y.date_creation ≤ x.date_creation)

theorem length_sortDocs (tri : String) (l : List Doc) :
    (sortDocs tri l).length = l.length := by
  unfold sortDocs
  split
  · exact List.length_insertionSort (fun x y : Doc => x.titre ≤ y.titre) l
  · exact List.length_insertionSort (fun x y : Doc => y.date_creation ≤ x.date_creation) l

theorem user_id_of_mem_docsMatching {uid : Nat} {db : List Doc} {f : Filtres}
    {d : Doc} (h : d ∈ docsMatching uid db f) : d.user_id = uid := by
  have h1 : d ∈ rlsVisible uid db := List.mem_of_mem_filter h
  have h2 := List.of_mem_filter h1
  simpa using h2

theorem user_id_of_mem_searchMatching {uid : Nat} {db : List Doc}
    {terme : String} {td : Option String} {d : Doc}
    (h : d ∈ searchMatching uid db terme td) : d.user_id = uid := by
  have h1 : d ∈ rlsVisible uid db :=
    List.mem_of_mem_filter (List.mem_of_mem_filter h)
  have h2 := List.of_mem_filter h1
  simpa using h2

theorem docsMatching_set_page (uid : Nat) (db : List Doc) (f : Filtres)
    (p : Nat) : docsMatching uid db { f with page := p } = docsMatching uid db f := rfl

/-- Sum of the lengths of consecutive windows of width `k` over a list of
length `L`. -/
theorem sum_window_min (L k : Nat) :
    ∀ N : Nat, (∑ p ∈ Finset.range N, min k (L - p * k)) = min (N * k) L := by
  intro N
  induction N with
  | zero => simp
  | succ n ih =>
      rw [Finset.sum_range_succ, ih, Nat.succ_mul]
      omega

/-! ## Claim theorems -/

/-- C1.  Every result slice of `getDocuments` (list) and of
`rechercherDocuments` (search), whatever the filter shape, contains only
records whose `user_id` is the calling owner: the row-level-security
policy restricts every access path before any other predicate applies, so
no record of a different owner can appear. -/
theorem c1_isolation_proprietaire (uid : Nat) (db : List Doc) (f : Filtres)
    (terme : String) :
    (∀ r, getDocuments uid db f = .ok r → ∀ d ∈ r.documents, d.user_id = uid) ∧
    (∀ r, rechercherDocuments uid db terme f = .ok r → ∀ d ∈ r.documents, d.user_id = uid) := by
  have hget : ∀ r, getDocuments uid db f = .ok r → ∀ d ∈ r.documents, d.user_id = uid := by
    intro r hr d hd
    rw [getDocuments_eq_ok] at hr
    cases hr
    have hmem : d ∈ sortDocs f.tri (docsMatching uid db f) :=
      List.mem_of_mem_drop (List.mem_of_mem_take hd)
    exact user_id_of_mem_docsMatching (mem_sortDocs.mp hmem)
  refine ⟨hget, ?_⟩
  intro r hr d hd
  unfold rechercherDocuments at hr
  by_cases hv : (jsTrim terme).isEmpty
  · rw [if_pos hv] at hr
    exact hget r hr d hd
  · rw [if_neg hv] at hr
    unfold rechercherFromResp evalSearchQuery at hr
    simp only [Option.getD_some] at hr
    cases hr
    exact user_id_of_mem_searchMatching (List.mem_of_mem_drop (List.mem_of_mem_take hd))

/-- C2.  A search whose term is empty or whitespace-only is literally the
same call as the filtered listing: `rechercherDocuments` returns
`getDocuments(filtres)` unchanged, so the records, their order and the
total coincide. -/
theorem c2_recherche_terme_vide (uid : Nat) (db : List Doc) (terme : String)
    (f : Filtres) (h : jsTrim terme = "") :
    rechercherDocuments uid db terme f = getDocuments uid db f := by
  unfold rechercherDocuments
  rw [h]
  rfl

theorem c1_isolation_proprietaire_witness : docAlice.user_id = 1 :=
  (c1_isolation_proprietaire 1 [docAlice, docBob] {} "a").1
    (getDocumentsRes 1 [docAlice, docBob] {})
    (getDocuments_eq_ok 1 [docAlice, docBob] {}) docAlice (by decide)

theorem c2_recherche_terme_vide_witness :
    rechercherDocuments 1 [docAlice] "   " {} = getDocuments 1 [docAlice] {} :=
  c2_recherche_terme_vide 1 [docAlice] "   " {} (by decide)

/-- C3 (divergence).  The query `rechercherDocuments` builds contains no
ORDER BY clause, so the rows of a search come back in table order, not
ranked: for the term "algebra", the record whose only hit is in the
content (spec score 1) is returned before the record whose hit is in the
title (spec score 3), although the specified ranking (score descending)
requires the opposite order. -/
theorem c3_recherche_sans_classement :
    rechercherDocuments 1 [docAlgebraContenu, docAlgebraTitre] "algebra" {} =
      .ok ⟨[docAlgebraContenu, docAlgebraTitre], 2⟩ ∧
    specScore "algebra" docAlgebraTitre > specScore "algebra" docAlgebraContenu :=
  ⟨rfl, by decide⟩

theorem getDocumentsRes_documents_length (uid : Nat) (db : List Doc)
    (f : Filtres) :
    ((getDocumentsRes uid db f).documents).length
      = min DOCS_PAR_PAGE ((docsMatching uid db f).length - f.page * DOCS_PAR_PAGE) := by
  simp [getDocumentsRes, List.length_take, List.length_drop, length_sortDocs]

/-- C4.  Pagination of `getDocuments` with the fixed page size
`DOCS_PAR_PAGE`, zero-based `page`: the call never errors; the returned
total is the exact number of records matching the full predicate,
independent of the page; summing the slice lengths over all pages yields
exactly that total; and a page past the end yields the empty slice with
the unchanged total. -/
theorem c4_pagination_exacte (uid : Nat) (db : List Doc) (f : Filtres) :
    (∀ p : Nat, getDocuments uid db { f with page := p }
        = .ok (getDocumentsRes uid db { f with page := p })) ∧
    (∀ p : Nat, (getDocumentsRes uid db { f with page := p }).total
        = (docsMatching uid db f).length) ∧
    (∀ N : Nat, (docsMatching uid db f).length ≤ N * DOCS_PAR_PAGE →
        (∑ p ∈ Finset.range N,
            ((getDocumentsRes uid db { f with page := p }).documents).length)
          = (docsMatching uid db f).length) ∧
    (∀ p : Nat, (docsMatching uid db f).length ≤ p * DOCS_PAR_PAGE →
        (getDocumentsRes uid db { f with page := p }).documents = [] ∧
        (getDocumentsRes uid db { f with page := p }).total
          = (docsMatching uid db f).length) := by
  refine ⟨fun p => getDocuments_eq_ok uid db _, fun p => rfl, ?_, ?_⟩
  · intro N hN
    have hlen : ∀ p : Nat,
        ((getDocumentsRes uid db { f with page := p }).documents).length
          = min DOCS_PAR_PAGE ((docsMatching uid db f).length - p * DOCS_PAR_PAGE) :=
      fun p => getDocumentsRes_documents_length uid db { f with page := p }
    calc (∑ p ∈ Finset.range N,
            ((getDocumentsRes uid db { f with page := p }).documents).length)
        = ∑ p ∈ Finset.range N,
            min DOCS_PAR_PAGE ((docsMatching uid db f).length - p * DOCS_PAR_PAGE) :=
          Finset.sum_congr rfl (fun p _ => hlen p)
      _ = min (N * DOCS_PAR_PAGE) (docsMatching uid db f).length :=
          sum_window_min (docsMatching uid db f).length DOCS_PAR_PAGE N
      _ = (docsMatching uid db f).length := Nat.min_eq_right hN
  · intro p hp
    refine ⟨?_, rfl⟩
    have hdrop : (sortDocs f.tri (docsMatching uid db f)).drop (p * DOCS_PAR_PAGE) = [] := by
      apply List.drop_eq_nil_of_le
      rw [length_sortDocs]
      exact hp
    show ((sortDocs f.tri (docsMatching uid db f)).drop (p * DOCS_PAR_PAGE)).take
        DOCS_PAR_PAGE = []
    rw [hdrop]
    rfl

theorem c4_pagination_exacte_witness :
    (getDocumentsRes 1 [docAlice, docBob] { ({} : Filtres) with page := 1 }).documents = [] ∧
    (getDocumentsRes 1 [docAlice, docBob] { ({} : Filtres) with page := 1 }).total
      = (docsMatching 1 [docAlice, docBob] {}).length :=
  (c4_pagination_exacte 1 [docAlice, docBob] {}).2.2.2 1 (by decide)

theorem tagsFilterOk_nonempty {ts : List String} (h : ts ≠ []) (d : Doc) :
    tagsFilterOk (some ts) d = true ↔ ∀ t ∈ ts, t ∈ d.tags.getD [] := by
  have hred : tagsFilterOk (some ts) d
      = if ts.isEmpty = true then true
        else ts.all fun t => (d.tags.getD []).contains t := rfl
  rw [hred, if_neg (by simp [List.isEmpty_iff, h])]
  simp only [List.all_eq_true]
  constructor
  · intro ha t ht
    exact List.elem_iff.mp (ha t ht)
  · intro ha t ht
    exact List.elem_iff.mpr (ha t ht)

/-- C5.  The tag filter of `getDocuments` is array containment: with a
non-empty required tag list `ts`, the matching records are exactly the
visible records whose tag set contains every tag of `ts`; an empty or
absent tag list leaves the query unfiltered. -/
theorem c5_filtre_tags_contenance (uid : Nat) (db : List Doc) (ts : List String) :
    (ts ≠ [] → ∀ d : Doc, d ∈ docsMatching uid db { tags := some ts } ↔
        d ∈ rlsVisible uid db ∧ ∀ t ∈ ts, t ∈ d.tags.getD []) ∧
    docsMatching uid db { tags := some [] } = rlsVisible uid db ∧
    docsMatching uid db { tags := none } = rlsVisible uid db := by
  refine ⟨?_, ?_, ?_⟩
  · intro hts d
    unfold docsMatching
    rw [List.mem_filter]
    constructor
    · rintro ⟨hmem, hmf⟩
      refine ⟨hmem, ?_⟩
      have : tagsFilterOk (some ts) d = true := by
        simp only [matchesFiltres, Bool.and_eq_true] at hmf
        exact hmf.2
      exact (tagsFilterOk_nonempty hts d).mp this
    · rintro ⟨hmem, hsub⟩
      refine ⟨hmem, ?_⟩
      simp only [matchesFiltres, Bool.and_eq_true]
      exact ⟨⟨rfl, rfl⟩, (tagsFilterOk_nonempty hts d).mpr hsub⟩
  · unfold docsMatching
    rw [List.filter_eq_self]
    intro a _
    rfl
  · unfold docsMatching
    rw [List.filter_eq_self]
    intro a _
    rfl

theorem c5_filtre_tags_contenance_witness :
    docAlice ∈ docsMatching 1 [docAlice, docBob] { tags := some ["a", "b"] } :=
  ((c5_filtre_tags_contenance 1 [docAlice, docBob] ["a", "b"]).1 (by decide) docAlice).mpr
    (by decide)

/-- C6 (counterexample).  Creating a document with an empty title and a
valid type succeeds: the empty string satisfies the NOT NULL constraint on
`titre`, so a record with an empty title is inserted and returned, where
the claim requires the call to fail with a validation error and create
nothing. -/
theorem c6_contre_titre_vide :
    ajouterDocument 1 [] 7 0 { titre := "", type_doc := some "note" } =
      .ok (docTitreVide, [docTitreVide]) ∧ docTitreVide.titre = "" :=
  ⟨rfl, rfl⟩

/-- C6 (amended).  Creation fails — with the generic creation error
surfaced to the caller, leaving the table unchanged — exactly when the
supplied type is a string outside the fixed enum {pdf, note, lien, image};
whenever the type passes the CHECK constraint (including an empty title)
the created record is returned and appended. -/
theorem c6_validation_type (uid : Nat) (db : List Doc) (newId now : Nat)
    (data : NewDocData) :
    (∀ t : String, data.type_doc = some t →
        t ∉ (["pdf", "note", "lien", "image"] : List String) →
        ajouterDocument uid db newId now data
          = .error "Erreur lors de la création du document") ∧
    (typeDocValide data.type_doc = true →
        ∃ doc : Doc, ajouterDocument uid db newId now data = .ok (doc, db ++ [doc])) := by
  constructor
  · intro t ht hmem
    have hv : typeDocValide data.type_doc = false := by
      rw [ht]
      unfold typeDocValide
      exact Bool.eq_false_iff.mpr (fun hc => hmem (List.elem_iff.mp hc))
    unfold ajouterDocument
    rw [if_neg (by simp [hv])]
  · intro hv
    refine ⟨{ id := newId, user_id := uid, titre := jsTrim data.titre,
              description := jsOrNullStr data.description,
              type_doc := data.type_doc,
              contenu := jsOrNullStr data.contenu,
              tags := if (nettoieTags (data.tags.getD [])).length > 0
                      then some (nettoieTags (data.tags.getD [])) else none,
              date_creation := now, date_modification := now,
              taille_kb := jsOrNullInt data.taille_kb,
              est_favori := data.est_favori.getD false }, ?_⟩
    unfold ajouterDocument
    rw [if_pos hv]

theorem c6_validation_type_witness :
    ajouterDocument 1 [] 7 0 { titre := "X", type_doc := some "video" } =
      .error "Erreur lors de la création du document" :=
  (c6_validation_type 1 [] 7 0 { titre := "X", type_doc := some "video" }).1
    "video" rfl (by decide)

/-- C7.  A database error carrying a "syntax error" message — the
condition raised by an unparseable search query — is absorbed by
`rechercherDocuments` into the successful empty result `{ documents: [],
total: 0 }` instead of being rethrown to the caller. -/
theorem c7_erreur_syntaxe_absorbee (resp : SupaResponse) (msg : String)
    (he : resp.error = some msg) (hs : jsIncludes msg "syntax error" = true) :
    rechercherFromResp resp = .ok ⟨[], 0⟩ := by
  simp [rechercherFromResp, he, hs]

theorem c7_erreur_syntaxe_absorbee_witness :
    rechercherFromResp { error := some "tsquery: syntax error in input" } = .ok ⟨[], 0⟩ :=
  c7_erreur_syntaxe_absorbee { error := some "tsquery: syntax error in input" }
    "tsquery: syntax error in input" rfl (by decide)

/-- C8 (counterexample).  Creating a document with the tag list
`["x", " x "]` stores `["x", "x"]`: both entries trim to the same tag and
the duplicate is kept, where the claim requires the stored tag set to
contain no duplicates. -/
theorem c8_contre_tags_dupliques :
    ajouterDocument 1 [] 7 0
        { titre := "T", type_doc := some "note", tags := some ["x", " x "] } =
      .ok (docTagsDup, [docTagsDup]) ∧ ¬ (docTagsDup.tags.getD []).Nodup :=
  ⟨rfl, by decide⟩

/-- C8 (amended).  The tag list stored by a create or update that supplies
tags is the supplied list with each entry trimmed and empty entries
dropped, case and order preserved; duplicates are not removed. -/
theorem c8_nettoyage_tags :
    (∀ ts : List String, ∀ t ∈ nettoieTags ts,
        t.isEmpty = false ∧ ∃ s ∈ ts, t = jsTrim s) ∧
    (∀ (uid : Nat) (db : List Doc) (newId now : Nat) (data : NewDocData)
        (doc : Doc) (rest : List Doc),
        ajouterDocument uid db newId now data = .ok (doc, rest) →
        doc.tags.getD [] = nettoieTags (data.tags.getD [])) ∧
    (∀ ts : List String, updateTagsValue (some ts) = some (nettoieTags ts)) := by
  refine ⟨?_, ?_, fun ts => rfl⟩
  · intro ts t ht
    unfold nettoieTags at ht
    rw [List.mem_filter] at ht
    obtain ⟨hmap, hne⟩ := ht
    rw [List.mem_map] at hmap
    obtain ⟨s, hs, heq⟩ := hmap
    exact ⟨by simpa using hne, s, hs, heq.symm⟩
  · intro uid db newId now data doc rest h
    simp only [ajouterDocument] at h
    by_cases hv : typeDocValide data.type_doc = true
    · rw [if_pos hv] at h
      injection h with h1
      injection h1 with hd hr
      subst hd
      show (if (nettoieTags (data.tags.getD [])).length > 0
          then some (nettoieTags (data.tags.getD [])) else none).getD []
        = nettoieTags (data.tags.getD [])
      rcases Nat.eq_zero_or_pos (nettoieTags (data.tags.getD [])).length with h0 | hp
      · rw [List.length_eq_zero] at h0
        rw [h0]
        rfl
      · rw [if_pos hp]
        rfl
    · rw [if_neg hv] at h
      exact absurd h (by simp)

theorem c8_nettoyage_tags_witness :
    "a".isEmpty = false ∧ ∃ s ∈ [" a "], "a" = jsTrim s :=
  c8_nettoyage_tags.1 [" a "] "a" (by decide)

/-- C9.  Both the listing and the search paginate with the same fixed page
size of 12 records (`DOCS_PAR_PAGE`): every returned slice holds at most
12 records, and the listing slice is exactly the window
`[page*12, page*12+11]` of the ordered matching records. -/
theorem c9_taille_page (uid : Nat) (db : List Doc) (f : Filtres) (terme : String) :
    DOCS_PAR_PAGE = 12 ∧
    (∀ r, getDocuments uid db f = .ok r → r.documents.length ≤ DOCS_PAR_PAGE) ∧
    (∀ r, rechercherDocuments uid db terme f = .ok r → r.documents.length ≤ DOCS_PAR_PAGE) ∧
    (getDocumentsRes uid db f).documents =
      ((sortDocs f.tri (docsMatching uid db f)).drop (f.page * DOCS_PAR_PAGE)).take
        DOCS_PAR_PAGE := by
  have hget : ∀ r, getDocuments uid db f = .ok r → r.documents.length ≤ DOCS_PAR_PAGE := by
    intro r hr
    rw [getDocuments_eq_ok] at hr
    injection hr with h1
    subst h1
    exact List.length_take_le DOCS_PAR_PAGE _
  refine ⟨rfl, hget, ?_, rfl⟩
  intro r hr
  unfold rechercherDocuments at hr
  by_cases hv : (jsTrim terme).isEmpty
  · rw [if_pos hv] at hr
    exact hget r hr
  · rw [if_neg hv] at hr
    simp only [rechercherFromResp, evalSearchQuery, Option.getD_some] at hr
    injection hr with h1
    subst h1
    exact List.length_take_le DOCS_PAR_PAGE _

theorem c9_taille_page_witness :
    (⟨[], 0⟩ : QueryResult).documents.length ≤ DOCS_PAR_PAGE :=
  (c9_taille_page 1 [] {} "a").2.1 ⟨[], 0⟩ rfl

/-- C10.  On every successful response (no error object), both response
handlers return a result whose `documents` field is the data payload with
a null payload coerced to the empty array and whose `total` is the count
with a null count coerced to 0 — in particular `documents` is always a
list and `total` a natural number. -/
theorem c10_coercition_nulle (resp : SupaResponse) (h : resp.error = none) :
    getDocumentsFromResp resp = .ok ⟨resp.data.getD [], resp.count.getD 0⟩ ∧
    rechercherFromResp resp = .ok ⟨resp.data.getD [], resp.count.getD 0⟩ := by
  refine ⟨?_, ?_⟩ <;> simp [getDocumentsFromResp, rechercherFromResp, h]

theorem c10_coercition_nulle_witness :
    getDocumentsFromResp { data := none, error := none, count := none } = .ok ⟨[], 0⟩ ∧
    rechercherFromResp { data := none, error := none, count := none } = .ok ⟨[], 0⟩ :=
  c10_coercition_nulle { data := none, error := none, count := none } rfl

end DocManager
